import Mathlib

/-!
Verification development for the geofenced attendance logic of the 90-PH
mobile application.

The TypeScript source is embedded shallowly:
* JavaScript `number` arithmetic is modelled by `ℝ` (exact real arithmetic;
  the claims under study are about order and algebraic structure, not about
  rounding of IEEE doubles);
* the JavaScript value `Infinity`, used as the sentinel distance, is
  modelled by `(⊤ : EReal)`, with finite distances coerced from `ℝ`;
* `undefined`/`null` fields become `Option`;
* the effectful wrappers (`expo-location`, alerts) become explicit
  parameters: a permission status pair and an optional position fix.
-/

/-- `ACCEPTABLE_GPS_ACCURACY_THRESHOLD = 1500` metres, from the source. -/
def ACCEPTABLE_GPS_ACCURACY_THRESHOLD : ℝ := 1500

/-- The `OfficeData` interface of the source: `requiredDistance?: number`
is an optional field. -/
structure OfficeData where
  id : String
  officeName : String
  latitude : ℝ
  longitude : ℝ
  requiredDistance : Option ℝ

/-- The `LocationData` interface of the source: `accuracy: number | null`. -/
structure LocationData where
  lat : ℝ
  lng : ℝ
  accuracy : Option ℝ

/-- JavaScript `Math.atan2 y x` on real (non-NaN) inputs, by the usual
quadrant case split. In the haversine formula it is only ever applied to
two non-negative square roots. -/
noncomputable def atan2 (y x : ℝ) : ℝ :=
  if 0 < x then Real.arctan (y / x)
  else if x < 0 ∧ 0 ≤ y then Real.arctan (y / x) + Real.pi
  else if x < 0 then Real.arctan (y / x) - Real.pi
  else if x = 0 ∧ 0 < y then Real.pi / 2
  else if x = 0 ∧ y < 0 then -(Real.pi / 2)
  else 0

/-- `calculateDistance` from the source: the haversine great-circle
distance in metres between two latitude/longitude pairs in decimal
degrees, with Earth radius `R = 6371e3` metres. -/
noncomputable def calculateDistance (lat1 lon1 lat2 lon2 : ℝ) : ℝ :=
  let R : ℝ := 6371e3
  let φ1 := lat1 * Real.pi / 180
  let φ2 := lat2 * Real.pi / 180
  let Δφ := (lat2 - lat1) * Real.pi / 180
  let Δlon := (lon2 - lon1) * Real.pi / 180
  let a := Real.sin (Δφ / 2) * Real.sin (Δφ / 2) +
    Real.cos φ1 * Real.cos φ2 * Real.sin (Δlon / 2) * Real.sin (Δlon / 2)
  let c := 2 * atan2 (Real.sqrt a) (Real.sqrt (1 - a))
  R * c

/-- The haversine quantity `a` of `calculateDistance`, extracted so that
its symmetry can be stated on its own. -/
noncomputable def hav (lat1 lon1 lat2 lon2 : ℝ) : ℝ :=
  Real.sin ((lat2 - lat1) * Real.pi / 180 / 2) *
      Real.sin ((lat2 - lat1) * Real.pi / 180 / 2) +
    Real.cos (lat1 * Real.pi / 180) * Real.cos (lat2 * Real.pi / 180) *
      Real.sin ((lon2 - lon1) * Real.pi / 180 / 2) *
      Real.sin ((lon2 - lon1) * Real.pi / 180 / 2)

lemma calculateDistance_eq_hav (lat1 lon1 lat2 lon2 : ℝ) :
    calculateDistance lat1 lon1 lat2 lon2 =
      6371e3 * (2 * atan2 (Real.sqrt (hav lat1 lon1 lat2 lon2))
        (Real.sqrt (1 - hav lat1 lon1 lat2 lon2))) := by
  unfold calculateDistance hav
  rfl

lemma hav_self (lat lon : ℝ) : hav lat lon lat lon = 0 := by
  simp [hav]

lemma hav_symm (lat1 lon1 lat2 lon2 : ℝ) :
    hav lat1 lon1 lat2 lon2 = hav lat2 lon2 lat1 lon1 := by
  unfold hav
  have h1 : (lat1 - lat2) * Real.pi / 180 / 2 =
      -((lat2 - lat1) * Real.pi / 180 / 2) := by ring
  have h2 : (lon1 - lon2) * Real.pi / 180 / 2 =
      -((lon2 - lon1) * Real.pi / 180 / 2) := by ring
  rw [h1, h2, Real.sin_neg, Real.sin_neg]
  ring

lemma atan2_zero_one : atan2 0 1 = 0 := by
  unfold atan2
  rw [if_pos (by norm_num : (0:ℝ) < 1)]
  simp

/-- The result record of `getDistanceToNearestOffice`:
`{ distance, office }` where the distance may be the `Infinity` sentinel. -/
structure NearestResult where
  distance : EReal
  office : Option OfficeData

/-- The `for (const office of assignedOffices)` loop body of
`getDistanceToNearestOffice`: running minimum `minDistance` (starting at
`Infinity`) and running `nearestOffice` (starting at `null`), updated on a
strict `<` comparison. -/
noncomputable def nearestLoop (d : OfficeData → ℝ) :
    List OfficeData → EReal → Option OfficeData → NearestResult
  | [], minDistance, nearestOffice =>
      { distance := minDistance, office := nearestOffice }
  | office :: rest, minDistance, nearestOffice =>
      if ((d office : ℝ) : EReal) < minDistance then
        nearestLoop d rest ((d office : ℝ) : EReal) (some office)
      else
        nearestLoop d rest minDistance nearestOffice

/-- `getDistanceToNearestOffice` from the source. The guard
`if (!location || assignedOffices.length === 0)` returns the sentinel
`{ distance: Infinity, office: null }`. -/
noncomputable def getDistanceToNearestOffice (location : Option LocationData)
    (assignedOffices : List OfficeData) : NearestResult :=
  match location with
  | none => { distance := ⊤, office := none }
  | some loc =>
      if assignedOffices.length = 0 then { distance := ⊤, office := none }
      else
        nearestLoop
          (fun office =>
            calculateDistance loc.lat loc.lng office.latitude office.longitude)
          assignedOffices ⊤ none

lemma nearestLoop_no_update (d : OfficeData → ℝ) (l : List OfficeData) :
    ∀ (minD : EReal) (nearest : Option OfficeData),
      (∀ o ∈ l, ¬ ((d o : ℝ) : EReal) < minD) →
      nearestLoop d l minD nearest = ⟨minD, nearest⟩ := by
  induction l with
  | nil => intro minD nearest _; rfl
  | cons a rest ih =>
      intro minD nearest h
      unfold nearestLoop
      rw [if_neg (h a (by simp))]
      exact ih minD nearest (fun o ho => h o (by simp [ho]))

lemma nearestLoop_char (d : OfficeData → ℝ) (l : List OfficeData) :
    ∀ (minD : EReal) (nearest : Option OfficeData),
      (∃ o ∈ l, ((d o : ℝ) : EReal) < minD) →
      ∃ l1 o l2, l = l1 ++ o :: l2 ∧
        nearestLoop d l minD nearest = ⟨((d o : ℝ) : EReal), some o⟩ ∧
        ((d o : ℝ) : EReal) < minD ∧
        (∀ o' ∈ l, d o ≤ d o') ∧
        (∀ o' ∈ l1, d o < d o') := by
  induction l with
  | nil => intro minD nearest h; simp at h
  | cons a rest ih =>
      intro minD nearest h
      by_cases ha : ((d a : ℝ) : EReal) < minD
      · unfold nearestLoop
        rw [if_pos ha]
        by_cases hrest : ∃ o ∈ rest, ((d o : ℝ) : EReal) < ((d a : ℝ) : EReal)
        · obtain ⟨l1, o, l2, heq, hloop, hlt, hmin, hfirst⟩ :=
            ih ((d a : ℝ) : EReal) (some a) hrest
          refine ⟨a :: l1, o, l2, by rw [heq]; rfl, hloop, lt_trans hlt ha, ?_, ?_⟩
          · intro o' ho'
            rcases List.mem_cons.mp ho' with h' | h'
            · subst h'
              exact le_of_lt (EReal.coe_lt_coe_iff.mp hlt)
            · exact hmin o' h'
          · intro o' ho'
            rcases List.mem_cons.mp ho' with h' | h'
            · subst h'
              exact EReal.coe_lt_coe_iff.mp hlt
            · exact hfirst o' h'
        · have hrest2 : ∀ o ∈ rest, ¬ ((d o : ℝ) : EReal) < ((d a : ℝ) : EReal) := by
            intro o ho hlt
            exact hrest ⟨o, ho, hlt⟩
          rw [nearestLoop_no_update d rest _ _ hrest2]
          refine ⟨[], a, rest, rfl, rfl, ha, ?_, by simp⟩
          intro o' ho'
          rcases List.mem_cons.mp ho' with h' | h'
          · subst h'; exact le_refl _
          · exact EReal.coe_le_coe_iff.mp (not_lt.mp (hrest2 o' h'))
      · unfold nearestLoop
        rw [if_neg ha]
        have hrest : ∃ o ∈ rest, ((d o : ℝ) : EReal) < minD := by
          obtain ⟨o, ho, hlt⟩ := h
          rcases List.mem_cons.mp ho with h' | h'
          · subst h'; exact absurd hlt ha
          · exact ⟨o, h', hlt⟩
        obtain ⟨l1, o, l2, heq, hloop, hlt, hmin, hfirst⟩ := ih minD nearest hrest
        have hoa : d o < d a := by
          have h1 : ((d o : ℝ) : EReal) < ((d a : ℝ) : EReal) :=
            lt_of_lt_of_le hlt (not_lt.mp ha)
          exact EReal.coe_lt_coe_iff.mp h1
        refine ⟨a :: l1, o, l2, by rw [heq]; rfl, hloop, hlt, ?_, ?_⟩
        · intro o' ho'
          rcases List.mem_cons.mp ho' with h' | h'
          · subst h'; exact le_of_lt hoa
          · exact hmin o' h'
        · intro o' ho'
          rcases List.mem_cons.mp ho' with h' | h'
          · subst h'; exact hoa
          · exact hfirst o' h'

/-- A sample coordinate used by the concrete witnesses. -/
def sampleLocation : LocationData :=
  { lat := 0, lng := 0, accuracy := none }

/-- A sample office used by the concrete witnesses. -/
def sampleOffice : OfficeData :=
  { id := "office-1", officeName := "HQ", latitude := 0, longitude := 0,
    requiredDistance := none }

/-- Claim C6: `calculateDistance` of a coordinate with itself is `0`, and
`calculateDistance` is symmetric in its two coordinates. -/
theorem calculateDistance_self_and_symm :
    (∀ lat lon : ℝ, calculateDistance lat lon lat lon = 0) ∧
    (∀ lat1 lon1 lat2 lon2 : ℝ,
      calculateDistance lat1 lon1 lat2 lon2 =
        calculateDistance lat2 lon2 lat1 lon1) := by
  constructor
  · intro lat lon
    rw [calculateDistance_eq_hav, hav_self, Real.sqrt_zero, sub_zero,
      Real.sqrt_one, atan2_zero_one]
    ring
  · intro lat1 lon1 lat2 lon2
    rw [calculateDistance_eq_hav, calculateDistance_eq_hav, hav_symm]

/-- Claim C3: for every coordinate, `getDistanceToNearestOffice` on the
empty office list returns the sentinel `{ distance: Infinity, office: null }`
rather than failing. -/
theorem getDistanceToNearestOffice_empty (location : Option LocationData) :
    getDistanceToNearestOffice location [] =
      { distance := ⊤, office := none } := by
  cases location <;> rfl

/-- Claim C8: `getDistanceToNearestOffice` is total when the location is
absent: it returns the same sentinel `{ distance: Infinity, office: null }`
as for an empty office list. -/
theorem getDistanceToNearestOffice_no_location
    (assignedOffices : List OfficeData) :
    getDistanceToNearestOffice none assignedOffices =
      { distance := ⊤, office := none } ∧
    ∀ loc : LocationData,
      getDistanceToNearestOffice none assignedOffices =
        getDistanceToNearestOffice (some loc) [] := by
  exact ⟨rfl, fun loc => rfl⟩

/-- Claim C1: on a non-empty office list, `getDistanceToNearestOffice`
returns the office of minimal `calculateDistance` together with that
distance, breaking ties by encounter order (every office strictly earlier
in the list is strictly farther); in particular on a three-office list at
distances `[500, 200, 800]` the `200` office is selected. -/
theorem getDistanceToNearestOffice_min (loc : LocationData)
    (offices : List OfficeData) (hne : offices ≠ []) :
    (∃ l1 o l2, offices = l1 ++ o :: l2 ∧
      getDistanceToNearestOffice (some loc) offices =
        ⟨((calculateDistance loc.lat loc.lng o.latitude o.longitude : ℝ) :
            EReal), some o⟩ ∧
      (∀ o' ∈ offices,
        calculateDistance loc.lat loc.lng o.latitude o.longitude ≤
          calculateDistance loc.lat loc.lng o'.latitude o'.longitude) ∧
      (∀ o' ∈ l1,
        calculateDistance loc.lat loc.lng o.latitude o.longitude <
          calculateDistance loc.lat loc.lng o'.latitude o'.longitude)) ∧
    (∀ o1 o2 o3 : OfficeData,
      calculateDistance loc.lat loc.lng o1.latitude o1.longitude = 500 →
      calculateDistance loc.lat loc.lng o2.latitude o2.longitude = 200 →
      calculateDistance loc.lat loc.lng o3.latitude o3.longitude = 800 →
      getDistanceToNearestOffice (some loc) [o1, o2, o3] =
        ⟨(((200 : ℝ)) : EReal), some o2⟩) := by
  have hlen : ¬ offices.length = 0 := by
    intro h
    exact hne (List.length_eq_zero.mp h)
  constructor
  · have hex : ∃ o ∈ offices,
        ((calculateDistance loc.lat loc.lng o.latitude o.longitude : ℝ) :
          EReal) < (⊤ : EReal) := by
      cases offices with
      | nil => exact absurd rfl hne
      | cons a rest => exact ⟨a, by simp, EReal.coe_lt_top _⟩
    obtain ⟨l1, o, l2, heq, hloop, _, hmin, hfirst⟩ :=
      nearestLoop_char
        (fun office =>
          calculateDistance loc.lat loc.lng office.latitude office.longitude)
        offices ⊤ none hex
    refine ⟨l1, o, l2, heq, ?_, hmin, hfirst⟩
    show (if offices.length = 0 then ({ distance := ⊤, office := none } : NearestResult)
      else nearestLoop
        (fun office =>
          calculateDistance loc.lat loc.lng office.latitude office.longitude)
        offices ⊤ none) = _
    rw [if_neg hlen]
    exact hloop
  · intro o1 o2 o3 h1 h2 h3
    show (if [o1, o2, o3].length = 0 then ({ distance := ⊤, office := none } : NearestResult)
      else nearestLoop
        (fun office =>
          calculateDistance loc.lat loc.lng office.latitude office.longitude)
        [o1, o2, o3] ⊤ none) = _
    rw [if_neg (by norm_num : ¬ ([o1, o2, o3].length = 0))]
    unfold nearestLoop
    rw [h1, if_pos (EReal.coe_lt_top 500)]
    unfold nearestLoop
    rw [h2, if_pos (show ((200 : ℝ) : EReal) < ((500 : ℝ) : EReal) from
      EReal.coe_lt_coe_iff.mpr (by norm_num))]
    unfold nearestLoop
    rw [h3, if_neg (show ¬ ((800 : ℝ) : EReal) < ((200 : ℝ) : EReal) from by
      rw [EReal.coe_lt_coe_iff]
      norm_num)]
    rfl

/-- Concrete instantiation of `getDistanceToNearestOffice_min` at a
one-office list. -/
theorem getDistanceToNearestOffice_min_witness :
    (∃ l1 o l2, [sampleOffice] = l1 ++ o :: l2 ∧
      getDistanceToNearestOffice (some sampleLocation) [sampleOffice] =
        ⟨((calculateDistance sampleLocation.lat sampleLocation.lng
            o.latitude o.longitude : ℝ) : EReal), some o⟩ ∧
      (∀ o' ∈ [sampleOffice],
        calculateDistance sampleLocation.lat sampleLocation.lng
            o.latitude o.longitude ≤
          calculateDistance sampleLocation.lat sampleLocation.lng
            o'.latitude o'.longitude) ∧
      (∀ o' ∈ l1,
        calculateDistance sampleLocation.lat sampleLocation.lng
            o.latitude o.longitude <
          calculateDistance sampleLocation.lat sampleLocation.lng
            o'.latitude o'.longitude)) ∧
    (∀ o1 o2 o3 : OfficeData,
      calculateDistance sampleLocation.lat sampleLocation.lng
        o1.latitude o1.longitude = 500 →
      calculateDistance sampleLocation.lat sampleLocation.lng
        o2.latitude o2.longitude = 200 →
      calculateDistance sampleLocation.lat sampleLocation.lng
        o3.latitude o3.longitude = 800 →
      getDistanceToNearestOffice (some sampleLocation) [o1, o2, o3] =
        ⟨(((200 : ℝ)) : EReal), some o2⟩) :=
  getDistanceToNearestOffice_min sampleLocation [sampleOffice] (by simp)


/-- `const requiredGeofenceDistance = nearestOffice?.requiredDistance || 1000`
from the source (both in `markAttendance` and in the render path of
`MarkAttendanceScreen`). JavaScript `||` substitutes the default `1000`
not only when `requiredDistance` is `undefined` (here `none`) but also
when it is the falsy number `0`. -/
noncomputable def requiredGeofenceDistance
    (nearestOffice : Option OfficeData) : ℝ :=
  match nearestOffice with
  | none => 1000
  | some office =>
      match office.requiredDistance with
      | none => 1000
      | some r => if r = 0 then 1000 else r

/-- `const isWithinRange = distance <= requiredGeofenceDistance` from the
source, with the distance possibly being the `Infinity` sentinel. -/
noncomputable def isWithinRange (distance : EReal)
    (nearestOffice : Option OfficeData) : Prop :=
  distance ≤ ((requiredGeofenceDistance nearestOffice : ℝ) : EReal)

/-- Modelled from the spec: the threshold exactly as claim C2 words it —
"the office's required distance, or the default when absent" — for
comparison with the evaluator's actual `requiredGeofenceDistance`. -/
def claimThreshold (office : OfficeData) : ℝ :=
  office.requiredDistance.getD 1000

/-- An office configured with a zero-metre geofence. -/
def zeroThresholdOffice : OfficeData :=
  { id := "office-z", officeName := "Zero", latitude := 0, longitude := 0,
    requiredDistance := some 0 }

/-- An office configured with the explicit threshold 1000. -/
def thousandOffice : OfficeData :=
  { id := "office-k", officeName := "Kilo", latitude := 0, longitude := 0,
    requiredDistance := some 1000 }

lemma requiredGeofenceDistance_some (office : OfficeData) (t : ℝ)
    (hreq : office.requiredDistance = some t) (ht : t ≠ 0) :
    requiredGeofenceDistance (some office) = t := by
  show (match office.requiredDistance with
    | none => (1000 : ℝ)
    | some r => if r = 0 then 1000 else r) = t
  rw [hreq]
  exact if_neg ht

lemma requiredGeofenceDistance_none (office : OfficeData)
    (hreq : office.requiredDistance = none) :
    requiredGeofenceDistance (some office) = 1000 := by
  show (match office.requiredDistance with
    | none => (1000 : ℝ)
    | some r => if r = 0 then 1000 else r) = (1000 : ℝ)
  rw [hreq]

lemma requiredGeofenceDistance_of_zero (office : OfficeData)
    (hreq : office.requiredDistance = some 0) :
    requiredGeofenceDistance (some office) = 1000 := by
  show (match office.requiredDistance with
    | none => (1000 : ℝ)
    | some r => if r = 0 then 1000 else r) = (1000 : ℝ)
  rw [hreq]
  exact if_pos rfl

/-- Counterexample to claim C2 as stated: for an office whose
`requiredDistance` is present but `0`, the evaluator's `withinRange` at
distance `500` is `true`, while `distance <= t` with `t` read as "the
office's required distance, or the default when absent" is `false`. -/
theorem isWithinRange_claim_counterexample :
    ¬ (isWithinRange (((500 : ℝ)) : EReal) (some zeroThresholdOffice) ↔
       (((500 : ℝ)) : EReal) ≤
         ((claimThreshold zeroThresholdOffice : ℝ) : EReal)) := by
  intro hiff
  have hthr : requiredGeofenceDistance (some zeroThresholdOffice) = 1000 :=
    requiredGeofenceDistance_of_zero zeroThresholdOffice rfl
  have hwithin :
      isWithinRange (((500 : ℝ)) : EReal) (some zeroThresholdOffice) := by
    unfold isWithinRange
    rw [hthr, EReal.coe_le_coe_iff]
    norm_num
  have hle := hiff.mp hwithin
  have h500 : (500 : ℝ) ≤ claimThreshold zeroThresholdOffice :=
    EReal.coe_le_coe_iff.mp hle
  rw [show claimThreshold zeroThresholdOffice = 0 from rfl] at h500
  norm_num at h500

/-- Claim C2 (amended): with the threshold `t` being the office's
`requiredDistance` when present and nonzero (and the default `1000`
otherwise), `withinRange` is exactly `distance <= t`, boundary inclusive:
at `t = 1000`, distance `999` is in range, `1000` is in range, `1001` is
not. -/
theorem isWithinRange_threshold (office : OfficeData) (distance : EReal)
    (t : ℝ) (hreq : office.requiredDistance = some t) (ht : t ≠ 0) :
    (isWithinRange distance (some office) ↔ distance ≤ ((t : ℝ) : EReal)) ∧
    (t = 1000 →
      (isWithinRange (((999 : ℝ)) : EReal) (some office) ∧
       isWithinRange (((1000 : ℝ)) : EReal) (some office) ∧
       ¬ isWithinRange (((1001 : ℝ)) : EReal) (some office))) := by
  have hthr : requiredGeofenceDistance (some office) = t :=
    requiredGeofenceDistance_some office t hreq ht
  constructor
  · unfold isWithinRange
    rw [hthr]
  · intro h1000
    subst h1000
    unfold isWithinRange
    rw [hthr]
    refine ⟨?_, ?_, ?_⟩
    · rw [EReal.coe_le_coe_iff]; norm_num
    · rw [EReal.coe_le_coe_iff]
    · rw [EReal.coe_le_coe_iff]; norm_num

/-- Concrete instantiation of `isWithinRange_threshold` at an office with
`requiredDistance = 1000`. -/
theorem isWithinRange_threshold_witness :
    ((isWithinRange (((999 : ℝ)) : EReal) (some thousandOffice) ↔
        (((999 : ℝ)) : EReal) ≤ (((1000 : ℝ)) : EReal)) ∧
     ((1000 : ℝ) = 1000 →
       (isWithinRange (((999 : ℝ)) : EReal) (some thousandOffice) ∧
        isWithinRange (((1000 : ℝ)) : EReal) (some thousandOffice) ∧
        ¬ isWithinRange (((1001 : ℝ)) : EReal) (some thousandOffice)))) :=
  isWithinRange_threshold thousandOffice (((999 : ℝ)) : EReal) 1000 rfl
    (by norm_num)

/-- Claim C4: when `requiredDistance` is absent the threshold used by the
evaluation is the default `1000` metres. -/
theorem requiredGeofenceDistance_default (office : OfficeData)
    (distance : EReal) (hreq : office.requiredDistance = none) :
    requiredGeofenceDistance (some office) = 1000 ∧
    (isWithinRange distance (some office) ↔
      distance ≤ (((1000 : ℝ)) : EReal)) := by
  have hthr : requiredGeofenceDistance (some office) = 1000 :=
    requiredGeofenceDistance_none office hreq
  refine ⟨hthr, ?_⟩
  unfold isWithinRange
  rw [hthr]

/-- Concrete instantiation of `requiredGeofenceDistance_default`. -/
theorem requiredGeofenceDistance_default_witness :
    requiredGeofenceDistance (some sampleOffice) = 1000 ∧
    (isWithinRange (((250 : ℝ)) : EReal) (some sampleOffice) ↔
      (((250 : ℝ)) : EReal) ≤ (((1000 : ℝ)) : EReal)) :=
  requiredGeofenceDistance_default sampleOffice (((250 : ℝ)) : EReal) rfl

/-- Claim C9: a `requiredDistance` of `0` is falsy in JavaScript, so the
evaluator substitutes the `1000` metre default for it: `withinRange` is
then computed against `1000`, and a zero-metre geofence is impossible. -/
theorem requiredGeofenceDistance_zero (office : OfficeData)
    (distance : EReal) (hreq : office.requiredDistance = some 0) :
    requiredGeofenceDistance (some office) = 1000 ∧
    (isWithinRange distance (some office) ↔
      distance ≤ (((1000 : ℝ)) : EReal)) ∧
    requiredGeofenceDistance (some office) ≠ 0 := by
  have hthr : requiredGeofenceDistance (some office) = 1000 :=
    requiredGeofenceDistance_of_zero office hreq
  refine ⟨hthr, ?_, ?_⟩
  · unfold isWithinRange
    rw [hthr]
  · rw [hthr]
    norm_num

/-- Concrete instantiation of `requiredGeofenceDistance_zero`. -/
theorem requiredGeofenceDistance_zero_witness :
    requiredGeofenceDistance (some zeroThresholdOffice) = 1000 ∧
    (isWithinRange (((500 : ℝ)) : EReal) (some zeroThresholdOffice) ↔
      (((500 : ℝ)) : EReal) ≤ (((1000 : ℝ)) : EReal)) ∧
    requiredGeofenceDistance (some zeroThresholdOffice) ≠ 0 :=
  requiredGeofenceDistance_zero zeroThresholdOffice (((500 : ℝ)) : EReal) rfl

/-- The JavaScript truthiness test
`location.accuracy && location.accuracy > ACCEPTABLE_GPS_ACCURACY_THRESHOLD`:
a `null` accuracy and the falsy number `0` short-circuit to false. -/
def lowAccuracy (accuracy : Option ℝ) : Prop :=
  match accuracy with
  | none => False
  | some a => a ≠ 0 ∧ ACCEPTABLE_GPS_ACCURACY_THRESHOLD < a

/-- The mutually exclusive exits of `markAttendance` in the source.
`lowAccuracyWarning` and `outOfRangeWarning` are the two confirmation
dialogs (Cancel / Continue resp. Cancel / Mark Anyway): both demand an
explicit user confirmation before `proceedWithAttendance` may run, while
`proceed` calls it directly. -/
inductive AttendanceOutcome
  | debounced
  | needSignIn
  | needLocation
  | noOffices
  | lowAccuracyWarning
  | resolverError
  | outOfRangeWarning
  | proceed
deriving DecidableEq

open Classical in
/-- `markAttendance` from the source, as the decision structure of its
early returns: debounce (`now - lastTap < 1500`), signed-in check,
location check, empty-office check, GPS-accuracy check, nearest-office
resolution, and the geofence comparison. -/
noncomputable def markAttendance (now lastTap : ℝ) (user : Bool)
    (location : Option LocationData) (assignedOffices : List OfficeData) :
    AttendanceOutcome :=
  if now - lastTap < 1500 then .debounced
  else if user = false then .needSignIn
  else
    match location with
    | none => .needLocation
    | some loc =>
        if assignedOffices.length = 0 then .noOffices
        else if lowAccuracy loc.accuracy then .lowAccuracyWarning
        else
          let result := getDistanceToNearestOffice (some loc) assignedOffices
          match result.office with
          | none => .resolverError
          | some nearestOffice =>
              if ((requiredGeofenceDistance (some nearestOffice) : ℝ) : EReal) <
                  result.distance then
                .outOfRangeWarning
              else .proceed

/-- Claim C5: whenever the reported accuracy exceeds the 1500 m threshold,
`markAttendance` takes the low-confidence warning path, a state distinct
from the out-of-range dialog and from proceeding, regardless of the
computed distance to the nearest office. -/
theorem markAttendance_low_accuracy (now lastTap : ℝ) (user : Bool)
    (loc : LocationData) (assignedOffices : List OfficeData) (a : ℝ)
    (hdeb : ¬ now - lastTap < 1500) (huser : user = true)
    (hoff : assignedOffices ≠ []) (hacc : loc.accuracy = some a)
    (ha : ACCEPTABLE_GPS_ACCURACY_THRESHOLD < a) :
    markAttendance now lastTap user (some loc) assignedOffices =
      AttendanceOutcome.lowAccuracyWarning ∧
    AttendanceOutcome.lowAccuracyWarning ≠ AttendanceOutcome.outOfRangeWarning ∧
    AttendanceOutcome.lowAccuracyWarning ≠ AttendanceOutcome.proceed := by
  refine ⟨?_, by decide, by decide⟩
  have ha0 : a ≠ 0 := by
    have : (0 : ℝ) < a :=
      lt_trans (by norm_num [ACCEPTABLE_GPS_ACCURACY_THRESHOLD]) ha
    exact ne_of_gt this
  have hlow : lowAccuracy loc.accuracy := by
    rw [hacc]
    exact ⟨ha0, ha⟩
  have hlen : ¬ assignedOffices.length = 0 := by
    intro h
    exact hoff (List.length_eq_zero.mp h)
  classical
  unfold markAttendance
  rw [if_neg hdeb, if_neg (by simp [huser])]
  show (if assignedOffices.length = 0 then AttendanceOutcome.noOffices
    else if lowAccuracy loc.accuracy then AttendanceOutcome.lowAccuracyWarning
    else
      let result := getDistanceToNearestOffice (some loc) assignedOffices
      match result.office with
      | none => AttendanceOutcome.resolverError
      | some nearestOffice =>
          if ((requiredGeofenceDistance (some nearestOffice) : ℝ) : EReal) <
              result.distance then
            AttendanceOutcome.outOfRangeWarning
          else AttendanceOutcome.proceed) = AttendanceOutcome.lowAccuracyWarning
  rw [if_neg hlen, if_pos hlow]

/-- Concrete instantiation of `markAttendance_low_accuracy` at accuracy
`2000`. -/
theorem markAttendance_low_accuracy_witness :
    markAttendance 2000 0 true
        (some { lat := 0, lng := 0, accuracy := some 2000 }) [sampleOffice] =
      AttendanceOutcome.lowAccuracyWarning ∧
    AttendanceOutcome.lowAccuracyWarning ≠ AttendanceOutcome.outOfRangeWarning ∧
    AttendanceOutcome.lowAccuracyWarning ≠ AttendanceOutcome.proceed :=
  markAttendance_low_accuracy 2000 0 true
    { lat := 0, lng := 0, accuracy := some 2000 } [sampleOffice] 2000
    (by norm_num) rfl (by simp) rfl
    (by norm_num [ACCEPTABLE_GPS_ACCURACY_THRESHOLD])

/-- The `loc.coords` record delivered by `Location.getCurrentPositionAsync`. -/
structure Coords where
  latitude : ℝ
  longitude : ℝ
  accuracy : Option ℝ

/-- The failure modes of `getLocation` in the source: permission denied,
position fix rejected for low GPS accuracy, or the `catch` branch. -/
inductive LocationError
  | permissionDenied
  | lowGpsAccuracy
  | positionUnavailable
deriving DecidableEq

open Classical in
/-- `getLocation` from the source, as a function of its external inputs:
the existing foreground-permission status, the status granted on request,
and the position fix (`none` models `getCurrentPositionAsync` throwing).
Returns the location stored by `setLocation` and the error stored by
`setError`. A fix whose truthy accuracy exceeds
`ACCEPTABLE_GPS_ACCURACY_THRESHOLD` is discarded: the stored location is
reset to `null` and an error is reported. -/
noncomputable def getLocation (existingStatus requestedStatus : String)
    (fix : Option Coords) : Option LocationData × Option LocationError :=
  if existingStatus ≠ "granted" ∧ requestedStatus ≠ "granted" then
    (none, some .permissionDenied)
  else
    match fix with
    | none => (none, some .positionUnavailable)
    | some coords =>
        if lowAccuracy coords.accuracy then (none, some .lowGpsAccuracy)
        else
          (some { lat := coords.latitude, lng := coords.longitude,
                  accuracy := coords.accuracy }, none)

/-- Claim C10: every location value stored by `getLocation` has accuracy
`null` or at most `1500` m; a fix whose reported accuracy exceeds the
threshold is never stored. -/
theorem getLocation_accuracy_invariant (existingStatus requestedStatus : String)
    (fix : Option Coords) (l : LocationData)
    (hstore : (getLocation existingStatus requestedStatus fix).1 = some l) :
    l.accuracy = none ∨
      ∃ a, l.accuracy = some a ∧ a ≤ ACCEPTABLE_GPS_ACCURACY_THRESHOLD := by
  classical
  unfold getLocation at hstore
  by_cases hperm : existingStatus ≠ "granted" ∧ requestedStatus ≠ "granted"
  · rw [if_pos hperm] at hstore
    exact absurd hstore (by simp)
  · rw [if_neg hperm] at hstore
    match fix with
    | none => exact absurd hstore (by simp)
    | some coords =>
        have hstore2 :
            (if lowAccuracy coords.accuracy then
                ((none : Option LocationData), some LocationError.lowGpsAccuracy)
              else
                (some ({ lat := coords.latitude, lng := coords.longitude, accuracy := coords.accuracy } : LocationData),
                  (none : Option LocationError))).1 = some l := hstore
        by_cases hlow : lowAccuracy coords.accuracy
        · rw [if_pos hlow] at hstore2
          exact absurd hstore2 (by simp)
        · rw [if_neg hlow] at hstore2
          have hl := Option.some.inj hstore2
          subst hl
          match hc : coords.accuracy with
          | none => exact Or.inl rfl
          | some a =>
              refine Or.inr ⟨a, rfl, ?_⟩
              rw [hc] at hlow
              unfold lowAccuracy at hlow
              by_cases ha0 : a = 0
              · rw [ha0]
                norm_num [ACCEPTABLE_GPS_ACCURACY_THRESHOLD]
              · have hnlt : ¬ ACCEPTABLE_GPS_ACCURACY_THRESHOLD < a := by
                  intro hlt
                  exact hlow ⟨ha0, hlt⟩
                exact not_lt.mp hnlt

/-- Concrete instantiation of `getLocation_accuracy_invariant` at an
accepted fix with accuracy `100`. -/
theorem getLocation_accuracy_invariant_witness :
    ({ lat := 0, lng := 0, accuracy := some 100 } : LocationData).accuracy
        = none ∨
      ∃ a, ({ lat := 0, lng := 0, accuracy := some 100 } :
          LocationData).accuracy = some a ∧
        a ≤ ACCEPTABLE_GPS_ACCURACY_THRESHOLD :=
  getLocation_accuracy_invariant "granted" "granted"
    (some { latitude := 0, longitude := 0, accuracy := some 100 })
    { lat := 0, lng := 0, accuracy := some 100 }
    (by
      classical
      unfold getLocation
      rw [if_neg (by simp)]
      show (if lowAccuracy (some (100 : ℝ)) then
            ((none : Option LocationData),
              some LocationError.lowGpsAccuracy)
          else
            (some { lat := 0, lng := 0, accuracy := some (100 : ℝ) },
              (none : Option LocationError))).1 =
        some { lat := 0, lng := 0, accuracy := some (100 : ℝ) }
      rw [if_neg (by
        unfold lowAccuracy
        intro hcon
        have h2 := hcon.2
        norm_num [ACCEPTABLE_GPS_ACCURACY_THRESHOLD] at h2)])

/-- The visit-request form fields checked by `validateForm`. -/
structure VisitForm where
  name : String
  email : String
  phone : String

/-- `form.phone.replace(/\D/g, "")`: delete every non-digit character. -/
def stripNonDigits (s : String) : String :=
  String.mk (s.data.filter Char.isDigit)

/-- The regular expression test `/^\d{10,15}$/.test(phoneDigits)`: the
whole string is 10 to 15 digits. -/
def digitsTenToFifteen (s : String) : Bool :=
  s.data.all Char.isDigit && decide (10 ≤ s.length) && decide (s.length ≤ 15)

/-- `validateForm` from the source, with the email regular expression
abstracted as the parameter `emailTest` (it is an opaque host `RegExp`
call and no claim depends on it). The phone branch checks
`phoneDigits.length < 10 || phoneDigits.length > 10` — exactly ten digits —
although its error message announces a 10–15 digit range; the final branch
is the `if (!plotId)` guard (`none` or the falsy empty string fail). -/
def validateForm (form : VisitForm) (plotId : Option String)
    (emailTest : String → Bool) : Bool :=
  if form.name.trim = "" then false
  else if form.email.trim = "" then false
  else if form.phone.trim = "" then false
  else if !emailTest form.email then false
  else
    let phoneDigits := stripNonDigits form.phone
    if phoneDigits.length < 10 ∨ phoneDigits.length > 10 then false
    else if !digitsTenToFifteen phoneDigits then false
    else
      match plotId with
      | none => false
      | some pid => if pid = "" then false else true

lemma validateForm_phone_ne_ten (form : VisitForm) (plotId : Option String)
    (emailTest : String → Bool)
    (hlen : (stripNonDigits form.phone).length ≠ 10) :
    validateForm form plotId emailTest = false := by
  unfold validateForm
  by_cases h1 : form.name.trim = ""
  · rw [if_pos h1]
  · rw [if_neg h1]
    by_cases h2 : form.email.trim = ""
    · rw [if_pos h2]
    · rw [if_neg h2]
      by_cases h3 : form.phone.trim = ""
      · rw [if_pos h3]
      · rw [if_neg h3]
        by_cases h4 : (!emailTest form.email) = true
        · rw [if_pos h4]
        · rw [if_neg h4]
          show (if (stripNonDigits form.phone).length < 10 ∨
                (stripNonDigits form.phone).length > 10 then false
            else if !digitsTenToFifteen (stripNonDigits form.phone) then false
            else
              match plotId with
              | none => false
              | some pid => if pid = "" then false else true) = false
          rw [if_pos (show (stripNonDigits form.phone).length < 10 ∨
            (stripNonDigits form.phone).length > 10 by omega)]

/-- Claim C7: `validateForm` accepts a phone number only when its digit
count is exactly 10; every input with 11 through 15 digits is rejected,
despite the comment and error message announcing a 10–15 digit range. -/
theorem validateForm_phone_exactly_ten (form : VisitForm)
    (plotId : Option String) (emailTest : String → Bool)
    (h11 : 11 ≤ (stripNonDigits form.phone).length)
    (h15 : (stripNonDigits form.phone).length ≤ 15) :
    validateForm form plotId emailTest = false ∧
    ∀ (f : VisitForm) (p : Option String) (e : String → Bool),
      validateForm f p e = true → (stripNonDigits f.phone).length = 10 := by
  constructor
  · exact validateForm_phone_ne_ten form plotId emailTest (by omega)
  · intro f p e hacc
    by_contra hne
    rw [validateForm_phone_ne_ten f p e hne] at hacc
    exact Bool.false_ne_true hacc

/-- Concrete instantiation of `validateForm_phone_exactly_ten` on a
12-digit phone number. -/
theorem validateForm_phone_exactly_ten_witness :
    validateForm
        { name := "Jane Roe", email := "jane@example.com",
          phone := "+91 1234-5678-90" }
        (some "plot-7") (fun _ => true) = false ∧
    ∀ (f : VisitForm) (p : Option String) (e : String → Bool),
      validateForm f p e = true → (stripNonDigits f.phone).length = 10 :=
  validateForm_phone_exactly_ten
    { name := "Jane Roe", email := "jane@example.com",
      phone := "+91 1234-5678-90" }
    (some "plot-7") (fun _ => true) (by decide) (by decide)
